import Mathlib

/-!
Verification development for a WebSocket-based Apple TV remote backend
(`backend/app`): device discovery and registry (`core/atv_manager.py`),
credential store (`db/database.py`), the now-playing reconciler
(`core/now_playing.py`), remote command passthrough (`core/atv_remote.py`)
and the per-connection WebSocket session manager (`api/websocket.py`).

Each Python function relevant to the checked properties is embedded as an
executable Lean definition, translated 1:1 from the source.  External
collaborators (pyatv provider, network, SQLite) are modelled by explicit
inputs: scan results are a `List ScanDevice` argument, the database is a
`List StoredEntry`, and provider success/failure of pairing, connecting and
command execution is supplied through a `PairEnv` record of oracles.
-/

set_option maxRecDepth 4096

namespace ATVRemote

/-- Lowercasing used for `device_state.name.lower()` in `now_playing.py`
(state names are ASCII). -/
def lowerStr (s : String) : String :=
  ⟨s.data.map Char.toLower⟩

/-- Python truthiness of an optional string (`None` and `""` are falsy). -/
def strTruthy (s : Option String) : Bool :=
  match s with
  | none => false
  | some t => t ≠ ""

/-!
## Now-playing reconciler (`core/now_playing.py`, class `NowPlayingListener`)
-/

/-- The snapshot state held by a `NowPlayingListener`.

`__init__` sets `last_artwork_id`, `last_artwork_data`, `last_title` and
`last_app` to `None` and `is_running` to `True`; it never assigns
`last_device_state`, which is first created at the top of
`_update_now_playing`.  `last_device_state = none` therefore models the
*absent attribute* (reading it raises `AttributeError`); once assigned it is
always a lowercased state-name string, never Python `None`, so the encoding
is unambiguous. -/
structure NPState where
  last_artwork_id : Option String
  last_artwork_data : Option String
  last_title : Option String
  last_app : Option String
  last_device_state : Option String
  is_running : Bool
deriving DecidableEq, Repr

/-- The listener state right after `NowPlayingListener.__init__`. -/
def initNPState : NPState :=
  ⟨none, none, none, none, none, true⟩

/-- The fields of a pyatv `Playing` status sample that the listener reads:
`title`, `artist`, `album` (optional strings) and `device_state.name`. -/
structure Playing where
  title : Option String
  artist : Option String
  album : Option String
  device_state : String
deriving DecidableEq, Repr

/-- Binary artwork as returned by `atv.metadata.artwork()`: a mimetype and
the base64 rendering of its bytes (the listener only ever uses these two). -/
structure Artwork where
  mimetype : String
  b64 : String
deriving DecidableEq, Repr

/-- `f"data:{artwork.mimetype};base64,{b64_artwork}"` from
`_update_now_playing`. -/
def mkDataUrl (a : Artwork) : String :=
  "data:" ++ a.mimetype ++ ";base64," ++ a.b64

/-- Outcome of the `await asyncio.wait_for(self.atv.metadata.artwork(), 3.0)`
call: either it returns (possibly a falsy artwork, mapped to `none`) or it
raises (timeout/provider error). -/
inductive FetchOutcome where
  | success (art : Option Artwork)
  | failure
deriving DecidableEq, Repr

/-- The `now_playing` JSON event sent to the frontend at the end of
`_update_now_playing`. -/
structure NPEvent where
  title : String
  artist : String
  album : Option String
  artwork : Option String
  has_artwork : Bool
  device_state : String
  app : Option String
deriving DecidableEq, Repr

/-- Result of one reconciliation pass: the updated listener state, the event
sent to the websocket (`none` when `send_json` raised, which the outer
`except` swallows), and whether an artwork fetch was attempted. -/
structure PassResult where
  state : NPState
  event : Option NPEvent
  fetched : Bool
deriving DecidableEq, Repr

/-- Step 4/5 of `_update_now_playing`: display title and artist fallbacks.
`display_title = playstatus.title`, `display_artist = artist or album`; if
the title is falsy it becomes `"Watching <app>"` (artist `"Apple TV"`) when
the app is truthy, else `"Not Playing"`; the final artist is
`display_artist or "Apple TV"`. -/
def displayTitleArtist (ps : Playing) (current_app : Option String) :
    String × String :=
  let a0 := if strTruthy ps.artist then ps.artist else ps.album
  if strTruthy ps.title then
    (ps.title.getD "", if strTruthy a0 then a0.getD "" else "Apple TV")
  else if strTruthy current_app then
    ("Watching " ++ current_app.getD "", "Apple TV")
  else
    ("Not Playing", "Apple TV")

/-- `NowPlayingListener._update_now_playing`, as a function of the listener
state, the `Playing` sample, the best-effort resolved app name and artwork
identifier (their `try/except: pass` blocks collapse a raising lookup and a
`None` result to the same `none`), the artwork-fetch outcome and whether the
final `send_json` succeeds.

Source order: (a) `self.last_device_state = playstatus.device_state.name.lower()`
is the first statement; (b) the three `changed_*` comparisons; (c) iff any
changed, the artwork fetch: on success the cache becomes the data URL (or
`None` for falsy artwork), on failure it is cleared only when app or title
changed, and afterwards `last_artwork_id/last_title/last_app` are assigned
unconditionally; (d) display fallbacks; (e) `send_json`.  A `send_json`
failure is caught by the outer `except`, leaving every earlier field write
in place. -/
def updateNowPlaying (s : NPState) (ps : Playing)
    (current_app current_artwork_id : Option String)
    (fetch : FetchOutcome) (emitOk : Bool) : PassResult :=
  let s1 : NPState := { s with last_device_state := some (lowerStr ps.device_state) }
  let fetchStep : NPState × Bool :=
    if current_app ≠ s.last_app ∨ ps.title ≠ s.last_title ∨
        current_artwork_id ≠ s.last_artwork_id then
      let dataAfter : Option String :=
        match fetch with
        | .success art =>
          match art with
          | some a => some (mkDataUrl a)
          | none => none
        | .failure =>
          if current_app ≠ s.last_app ∨ ps.title ≠ s.last_title then none
          else s.last_artwork_data
      ({ s1 with
          last_artwork_data := dataAfter,
          last_artwork_id := current_artwork_id,
          last_title := ps.title,
          last_app := current_app }, true)
    else (s1, false)
  let disp := displayTitleArtist ps current_app
  let ev : NPEvent :=
    ⟨disp.1, disp.2, ps.album, fetchStep.1.last_artwork_data,
      fetchStep.1.last_artwork_data.isSome, lowerStr ps.device_state,
      current_app⟩
  ⟨fetchStep.1, if emitOk then some ev else none, fetchStep.2⟩

/-- The change test of one `_periodic_sync` iteration:
`playstatus.title != self.last_title or
 playstatus.device_state.name.lower() != self.last_device_state`.
Python evaluates the disjunction left to right, so when the first disjunct
is true the (possibly missing) `last_device_state` attribute is never read;
`none` in the result means the read raised `AttributeError`. -/
def pollCheck (s : NPState) (ps : Playing) : Option Bool :=
  if ps.title ≠ s.last_title then some true
  else
    match s.last_device_state with
    | none => none
    | some d => if lowerStr ps.device_state ≠ d then some true else some false

/-- One iteration of `NowPlayingListener._periodic_sync` after a successful
`metadata.playing()` sample: run `_update_now_playing` only when
`pollCheck` yields `true`; an `AttributeError` from the comparison is
swallowed by the bare `except: pass`, producing no event and no update. -/
def pollTick (s : NPState) (ps : Playing)
    (current_app current_artwork_id : Option String)
    (fetch : FetchOutcome) (emitOk : Bool) : PassResult :=
  match pollCheck s ps with
  | none => ⟨s, none, false⟩
  | some false => ⟨s, none, false⟩
  | some true => updateNowPlaying s ps current_app current_artwork_id fetch emitOk

/-!
## Credential store (`db/database.py`)

The `apple_tvs` table has primary key `(device_id, protocol)`;
`save_device_credentials` is an `INSERT OR REPLACE` on that key.  The table
is modelled as a `List StoredEntry` (row order is immaterial to the checked
claims; REPLACE is modelled as filter-out-then-append).
-/

/-- One row of the `apple_tvs` table, as returned by
`get_all_stored_devices` (keys `device_id, protocol, name, address,
credentials`). -/
structure StoredEntry where
  device_id : String
  protocol : String
  name : String
  address : String
  credentials : String
deriving DecidableEq, Repr

/-- `save_device_credentials`: `INSERT OR REPLACE` keyed on
`(device_id, protocol)`. -/
def upsertRecord (db : List StoredEntry) (rec : StoredEntry) : List StoredEntry :=
  db.filter (fun e => !(e.device_id = rec.device_id ∧ e.protocol = rec.protocol)) ++ [rec]

/-- `SELECT * FROM apple_tvs WHERE device_id = ? AND protocol = ?`
(first matching row). -/
def lookupRecord (db : List StoredEntry) (device_id protocol : String) :
    Option StoredEntry :=
  db.find? (fun e => e.device_id = device_id ∧ e.protocol = protocol)

/-- `delete_device`: `DELETE FROM apple_tvs WHERE device_id = ?`; a missing
`data.get("device_id")` (`None`) matches no row. -/
def deleteDevice (db : List StoredEntry) (device_id : Option String) :
    List StoredEntry :=
  match device_id with
  | none => db
  | some i => db.filter (fun e => !(e.device_id = i))

/-!
## Device registry (`core/atv_manager.py`)
-/

/-- A pyatv service of a scanned device: its `protocol.name` and its
`identifier`. -/
structure ScanService where
  protocol : String
  identifier : String
deriving DecidableEq, Repr

/-- A device returned by `pyatv.scan`: the attributes the registry reads
(`name`, `str(address)`, `identifier`, `all_identifiers`, `services`). -/
structure ScanDevice where
  name : String
  address : String
  identifier : String
  all_identifiers : List String
  services : List ScanService
deriving DecidableEq, Repr

/-- One value of the `stored_groups` dict in
`get_formatted_discovery_results`: `{'name', 'address', 'creds', 'ids'}`.
`ids` is a Python set; it is modelled as an insertion-ordered duplicate-free
list (the code only tests membership/disjointness on it, plus one arbitrary
element choice for offline entries). -/
structure StoredGroup where
  name : String
  address : String
  creds : List StoredEntry
  ids : List String
deriving DecidableEq, Repr

/-- `f"{entry['address']}_{entry['name']}"`. -/
def groupKey (e : StoredEntry) : String :=
  e.address ++ "_" ++ e.name

/-- One step of building `stored_groups`: insert `e` into the
insertion-ordered dict, creating the group on a fresh key and otherwise
appending to `creds` and adding the id to the `ids` set. -/
def addToGroups (gs : List (String × StoredGroup)) (e : StoredEntry) :
    List (String × StoredGroup) :=
  match gs with
  | [] => [(groupKey e, ⟨e.name, e.address, [e], [e.device_id]⟩)]
  | (k, g) :: rest =>
    if k = groupKey e then
      (k, ⟨g.name, g.address, g.creds ++ [e],
            if e.device_id ∈ g.ids then g.ids else g.ids ++ [e.device_id]⟩) :: rest
    else (k, g) :: addToGroups rest e

/-- The `stored_groups` dict: a fold of `addToGroups` over the stored rows
in database order. -/
def buildStoredGroups (stored : List StoredEntry) : List (String × StoredGroup) :=
  stored.foldl addToGroups []

/-- `not info['ids'].isdisjoint(device.all_identifiers)`. -/
def idsOverlap (ids devIds : List String) : Bool :=
  ids.any (fun i => devIds.contains i)

/-- The `matching_key` search for one online device: the first stored group
(in dict insertion order) whose id set overlaps `device.all_identifiers`;
otherwise the `(address, name)` fallback key when that key exists. -/
def findMatchingKey (groups : List (String × StoredGroup)) (device : ScanDevice) :
    Option String :=
  match groups.find? (fun kg => idsOverlap kg.2.ids device.all_identifiers) with
  | some kg => some kg.1
  | none =>
    let addrKey := device.address ++ "_" ++ device.name
    if groups.any (fun kg => kg.1 = addrKey) then some addrKey else none

/-- One entry of the discovery response (`_process_online_device` /
`_format_offline_device` / `get_paired_devices_initial`).  `online` is
`some true` / `some false` / `none` for Python `True` / `False` / `None`. -/
structure DeviceView where
  name : String
  address : String
  device_id : String
  services : List String
  paired_protocols : List String
  unpaired_services : List String
  paired : Bool
  online : Option Bool
deriving DecidableEq, Repr

/-- `if entry['protocol'] not in paired_protocols: append`. -/
def dedupAppend (acc : List String) (p : String) : List String :=
  if p ∈ acc then acc else acc ++ [p]

/-- `_process_online_device` (the `_apply_single_credential` calls only
mutate the provider-side handle and log failures; they do not affect the
returned entry and are not modelled). -/
def processOnlineDevice (device : ScanDevice) (stored_info : Option StoredGroup) :
    DeviceView :=
  let paired_protocols :=
    match stored_info with
    | some info => info.creds.foldl (fun acc e => dedupAppend acc e.protocol) []
    | none => []
  let available_services := device.services.map (fun s => s.protocol)
  let unpaired_services :=
    (["MRP", "AirPlay", "Companion"]).filter
      (fun s => available_services.contains s && !(paired_protocols.contains s))
  ⟨device.name, device.address, device.identifier, available_services,
    paired_protocols, unpaired_services, paired_protocols.length > 0, some true⟩

/-- `_format_offline_device`.  `list(info['ids'])[0]` picks an arbitrary
element of the id set; the model picks the first-inserted one (for the
checked claims the set is a singleton or the choice is irrelevant).  Note
the offline branch does *not* deduplicate protocols. -/
def formatOfflineDevice (info : StoredGroup) : DeviceView :=
  ⟨info.name, info.address,
    (match info.ids with | [] => "unknown" | i :: _ => i),
    [], info.creds.map (fun c => c.protocol), [], true, some false⟩

/-- Insertion into the `discovered_devices_cache` dict (overwrite on equal
key, preserving position). -/
def dictInsert (cache : List (String × ScanDevice)) (k : String) (v : ScanDevice) :
    List (String × ScanDevice) :=
  match cache with
  | [] => [(k, v)]
  | (k', v') :: rest =>
    if k' = k then (k, v) :: rest else (k', v') :: dictInsert rest k v

/-- `discovered_devices_cache.get(key)`. -/
def dictGet (cache : List (String × ScanDevice)) (k : String) : Option ScanDevice :=
  (cache.find? (fun p => p.1 = k)).map (fun p => p.2)

/-- The value returned by `get_formatted_discovery_results` together with
the rebuilt `discovered_devices_cache`. -/
structure DiscoveryOutput where
  results : List DeviceView
  cache : List (String × ScanDevice)
deriving DecidableEq, Repr

/-- Accumulator of the online-device loop: results so far, cache so far,
and `processed_keys` (modelled as a list, membership only). -/
structure OnlineAcc where
  results : List DeviceView
  cache : List (String × ScanDevice)
  processed : List String
deriving Repr

/-- The body of `for device in online_devices` in
`get_formatted_discovery_results`. -/
def onlineStep (groups : List (String × StoredGroup)) (acc : OnlineAcc)
    (device : ScanDevice) : OnlineAcc :=
  let mk := findMatchingKey groups device
  let info : Option StoredGroup :=
    match mk with
    | some k => (groups.find? (fun kg => kg.1 = k)).map (fun kg => kg.2)
    | none => none
  let res := processOnlineDevice device info
  ⟨acc.results ++ [res], dictInsert acc.cache res.address device,
    match mk with
    | some k => acc.processed ++ [k]
    | none => acc.processed⟩

/-- `get_formatted_discovery_results`, as a function of the scan result and
the stored rows: build `stored_groups`, clear and rebuild the cache while
formatting each online device against its matching group, then append the
unmatched stored groups as offline entries. -/
def getFormattedDiscoveryResults (online : List ScanDevice)
    (stored : List StoredEntry) : DiscoveryOutput :=
  let groups := buildStoredGroups stored
  let acc := online.foldl (onlineStep groups) ⟨[], [], []⟩
  let offline :=
    (groups.filter (fun kg => !(acc.processed.contains kg.1))).map
      (fun kg => formatOfflineDevice kg.2)
  ⟨acc.results ++ offline, acc.cache⟩

/-- One step of the `get_paired_devices_initial` grouping dict. -/
def addPairedInitial (acc : List (String × DeviceView)) (d : StoredEntry) :
    List (String × DeviceView) :=
  match acc with
  | [] => [(groupKey d, ⟨d.name, d.address, d.device_id, [], [d.protocol], [], true, none⟩)]
  | (k, v) :: rest =>
    if k = groupKey d then
      (k, { v with paired_protocols := dedupAppend v.paired_protocols d.protocol }) :: rest
    else (k, v) :: addPairedInitial rest d

/-- `get_paired_devices_initial`: group stored rows by `(address, name)`
without a scan; `online` is `None`. -/
def getPairedDevicesInitial (stored : List StoredEntry) : List DeviceView :=
  (stored.foldl addPairedInitial []).map (fun kv => kv.2)

/-!
## Pairing (`core/atv_manager.py`)
-/

/-- The member names of pyatv's `Protocol` enum, searched by
`next(p for p in Protocol if p.name == protocol_name)`. -/
def protocolNames : List String :=
  ["DMAP", "MRP", "AirPlay", "Companion", "RAOP"]

/-- `_select_best_pairing_protocol`: first of MRP, Companion, AirPlay that
the device advertises. -/
def selectBestPairingProtocol (device : ScanDevice) : Option String :=
  (["MRP", "Companion", "AirPlay"]).find?
    (fun p => device.services.any (fun s => s.protocol = p))

/-- The data read off a completed pairing handler in
`finish_pairing_session`: `handler.service.{credentials, protocol.name,
identifier}`. -/
structure HandlerService where
  credentials : String
  protocol : String
  identifier : String
deriving DecidableEq, Repr

/-- The cache search in `finish_pairing_session`: first cached device (in
insertion order) whose `identifier` or any service identifier equals the
handler's `device_id`; `("Unknown", "Unknown")` when none matches. -/
def resolveNameAddr (cache : List (String × ScanDevice)) (device_id : String) :
    String × String :=
  match (cache.map (fun p => p.2)).find?
      (fun d => d.identifier = device_id ||
        d.services.any (fun s => s.identifier = device_id)) with
  | some d => (d.name, d.address)
  | none => ("Unknown", "Unknown")

/-- `finish_pairing_session` after a successful `handler.finish()`: resolve
a human-readable name/address from the cache, persist the record via
`save_device_credentials`, and return the new table plus the identity
triple. -/
def finishPairingSession (cache : List (String × ScanDevice))
    (db : List StoredEntry) (svc : HandlerService) :
    List StoredEntry × String × String × String :=
  let na := resolveNameAddr cache svc.identifier
  (upsertRecord db ⟨svc.identifier, svc.protocol, na.1, na.2, svc.credentials⟩,
    svc.identifier, na.1, na.2)

/-!
## WebSocket session manager (`api/websocket.py`)

Per-connection state (`connected_remotes[ws_id]`, `active_pairings[ws_id]`)
is modelled for a single connection.  Provider behaviour (whether `pair`,
`connect`, `handler.finish` and device commands succeed, and what the
completed handler's service data is) is given by a `PairEnv` of oracles; a
scan is the `scan : List ScanDevice` argument of the transition functions.
-/

/-- Oracles for the external provider: `scanOk` — whether `pyatv.scan`
succeeds in this cycle; `pairOk a p` — whether `pair(device, p)` plus
`handler.begin()` succeed for the device at address `a`; `pinOk a p pin` —
whether `handler.pin(pin); handler.finish()` succeeds;
`handlerService a p` — the completed handler's service data;
`connectOk` / `connectErr` — outcome and error text of `pyatv.connect`;
`cmdLookup c` — whether the provider call behind remote command `c`
succeeds, with `cmdErr c` the exception text otherwise. -/
structure PairEnv where
  scanOk : Bool
  pairOk : String → String → Bool
  pinOk : String → String → Option String → Bool
  handlerService : String → String → HandlerService
  connectOk : String → Bool
  connectErr : String → String
  cmdLookup : String → Bool
  cmdErr : String → String

/-- Outbound events sent over the websocket. -/
inductive WSEvent where
  | discoveryResults (devices : List DeviceView)
  | statusMsg (message : String)
  | errorMsg (message : String)
  | pairingStarted (protocol : String) (message : String)
  | pairingCompleted (address : String)
  | pairingFailed (message : String)
deriving DecidableEq, Repr

/-- `active_pairings[ws_id]`: the in-flight pairing handler's address, the
remaining protocol queue, and the protocol currently awaiting a PIN. -/
structure PairingState where
  address : String
  queue : List String
  current_proto : String
deriving DecidableEq, Repr

/-- `connected_remotes[ws_id]` together with the session's listener:
whether `push_updater` is running, whether `atv.close()` was called, and
the `NowPlayingListener` snapshot state. -/
structure ConnState where
  pushRunning : Bool
  closed : Bool
  listener : NPState
deriving DecidableEq, Repr

/-- The whole per-connection world: the durable table, the process-wide
`discovered_devices_cache`, the connected session, the active pairing, and
the events sent to this client so far. -/
structure WSState where
  db : List StoredEntry
  cache : List (String × ScanDevice)
  connected : Option ConnState
  pairing : Option PairingState
  events : List WSEvent
deriving DecidableEq, Repr

/-- `websocket.send_json(...)`. -/
def emit (ws : WSState) (e : WSEvent) : WSState :=
  { ws with events := ws.events ++ [e] }

/-- `_handle_discover`: run discovery (rebuilding the cache) and send the
results.  The caller guards provider failure of the scan. -/
def handleDiscover (scan : List ScanDevice) (ws : WSState) : WSState :=
  let out := getFormattedDiscoveryResults scan ws.db
  emit { ws with cache := out.cache } (.discoveryResults out.results)

/-- Success of `start_pairing_session(address, protoName)`: the address
must be in the current cache (`ValueError` otherwise), the protocol name
must be a `Protocol` member (`StopIteration` otherwise), and the provider's
`pair` + `begin` must succeed. -/
def startPairingSessionOk (env : PairEnv) (cache : List (String × ScanDevice))
    (address protoName : String) : Bool :=
  (dictGet cache address).isSome && protocolNames.contains protoName &&
    env.pairOk address protoName

/-- `_start_next_in_pairing_queue`: pop the queue head, try to start its
handshake; on success store the new pairing session and send a
`pairing_status: started` event, on failure send an error event (the old
`active_pairings` entry, if any, is left in place).  The in-place `pop(0)`
aliasing of the stored queue on the failure path is not modelled; no
checked claim exercises it.  Callers only invoke this with a non-empty
queue. -/
def startNextInPairingQueue (env : PairEnv) (ws : WSState) (address : String)
    (queue : List String) : WSState :=
  match queue with
  | [] => ws
  | p :: rest =>
    if startPairingSessionOk env ws.cache address p then
      emit { ws with pairing := some ⟨address, rest, p⟩ }
        (.pairingStarted p ("Enter PIN for " ++ p))
    else
      emit ws (.errorMsg ("Failed to start " ++ p))

/-- The queue computed by `_handle_pair_start` when no protocol was
requested: the matched discovery entry's `unpaired_services`, falling back
to `[_select_best_pairing_protocol(device)]` when that list is empty. -/
def pairStartQueue (out : DiscoveryOutput) (device : ScanDevice)
    (address : String) : List String :=
  let device_info := out.results.find? (fun d => d.address = address)
  let queue0 :=
    match device_info with
    | some d => d.unpaired_services
    | none => []
  if queue0 = [] then
    match selectBestPairingProtocol device with
    | some p => [p]
    | none => []
  else queue0

/-- `_handle_pair_start`.  The device must be in the cache (error event
otherwise, sent before any scan).  With an explicit protocol the queue is
that singleton; otherwise a fresh `get_formatted_discovery_results` call
(rebuilding the cache) derives the unpaired queue — if that scan raises,
the exception propagates to `_process_message`'s boundary handler and the
state is unchanged (modelled by the `scanOk = false` branch). -/
def handlePairStart (env : PairEnv) (scan : List ScanDevice) (ws : WSState)
    (address : Option String) (requestedProto : Option String) : WSState :=
  match address with
  | none => emit ws (.errorMsg "Device not found in cache.")
  | some a =>
    match dictGet ws.cache a with
    | none => emit ws (.errorMsg "Device not found in cache.")
    | some device =>
      match requestedProto with
      | some p => startNextInPairingQueue env ws a [p]
      | none =>
        if env.scanOk then
          let out := getFormattedDiscoveryResults scan ws.db
          let ws1 := { ws with cache := out.cache }
          let queue := pairStartQueue out device a
          if queue = [] then emit ws1 (.errorMsg "No unpaired services found.")
          else startNextInPairingQueue env ws1 a queue
        else ws

/-- `_handle_pair_pin`: finish the current handshake (persisting the
record), then either chain the next queued protocol (a further `started`
event) or, on an empty queue, drop the session, send the single
`completed` event and re-run `_handle_discover`.  A failing
`finish` — or a failing scan inside that trailing `_handle_discover` — is
caught by the handler's own `except`, which sends `pairing_status: failed`. -/
def handlePairPin (env : PairEnv) (scan : List ScanDevice) (ws : WSState)
    (pin : Option String) : WSState :=
  match ws.pairing with
  | none => emit ws (.errorMsg "No active pairing")
  | some sess =>
    if env.pinOk sess.address sess.current_proto pin then
      let svc := env.handlerService sess.address sess.current_proto
      let fin := finishPairingSession ws.cache ws.db svc
      let ws1 := { ws with db := fin.1 }
      if sess.queue = [] then
        let ws2 := emit { ws1 with pairing := none } (.pairingCompleted sess.address)
        if env.scanOk then handleDiscover scan ws2
        else emit ws2 (.pairingFailed "scan failed")
      else startNextInPairingQueue env ws1 sess.address sess.queue
    else emit ws (.pairingFailed "pairing failed")

/-- `_handle_connect`: the device must be in the cache (`"Scan first."`
otherwise); on provider success a fresh `NowPlayingListener` is created
(its `__init__` starts the poll task) and the push updater started.  The
`initial_fetch` task it spawns is asynchronous and not part of this
transition. -/
def handleConnect (env : PairEnv) (ws : WSState) (address : Option String) :
    WSState :=
  match address with
  | none => emit ws (.errorMsg "Scan first.")
  | some a =>
    match dictGet ws.cache a with
    | none => emit ws (.errorMsg "Scan first.")
    | some device =>
      if env.connectOk a then
        emit { ws with connected := some ⟨true, false, initNPState⟩ }
          (.statusMsg ("Connected to " ++ device.name))
      else emit ws (.errorMsg (env.connectErr a))

/-- `_cleanup_session`: if a device session exists, stop the push updater,
close the handle and drop the entry; if a pairing exists, close its handler
and drop it.  The listener object survives in its still-scheduled
`_periodic_sync` task; the second component returns its state, which
cleanup never touches — in particular `stop()` is never called on it, so
`is_running` is left as-is. -/
def cleanupSession (ws : WSState) : WSState × Option NPState :=
  let leftover :=
    match ws.connected with
    | some c => some c.listener
    | none => none
  ({ ws with connected := none, pairing := none }, leftover)

/-- `remote_control`/`audio` command names known to
`perform_remote_command`. -/
def remoteCommandNames : List String :=
  ["play_pause", "menu", "home", "up", "down", "left", "right", "select",
    "volume_up", "volume_down"]

/-- `atv_remote.perform_remote_command`: `power_toggle` has its own path;
known commands run the provider call (an exception yields
`(False, str(e))`); anything else — including a missing command name —
returns `(False, "Unknown command: ...")`. -/
def performRemoteCommand (env : PairEnv) (cmd : Option String) : Bool × String :=
  match cmd with
  | some c =>
    if c = "power_toggle" then
      if env.cmdLookup c then (true, "Power toggle sent.") else (false, env.cmdErr c)
    else if remoteCommandNames.contains c then
      if env.cmdLookup c then (true, "Command " ++ c ++ " executed.")
      else (false, env.cmdErr c)
    else (false, "Unknown command: " ++ c)
  | none => (false, "Unknown command: None")

/-- `_handle_remote_cmd`: with no connected device the handler returns
immediately (no event).  Volume commands are dispatched fire-and-forget
(their result is discarded); all others are awaited, with an error event on
failure.  The second component lists the commands handed to the device. -/
def handleRemoteCmd (env : PairEnv) (ws : WSState) (cmd : Option String) :
    WSState × List (Option String) :=
  match ws.connected with
  | none => (ws, [])
  | some _ =>
    if cmd = some "volume_up" ∨ cmd = some "volume_down" then (ws, [cmd])
    else
      let r := performRemoteCommand env cmd
      (if r.1 then ws else emit ws (.errorMsg r.2), [cmd])

/-- An inbound websocket text frame: either `json.loads` raised
(`malformed`) or it parsed to a dict whose relevant `get` fields are
given. -/
inductive InboundMsg where
  | malformed
  | parsed (command : Option String) (address : Option String)
      (protocol : Option String) (pin : Option String)
      (device_id : Option String)
deriving DecidableEq, Repr

/-- `_process_message`: route a frame to its handler.  Every exception —
the `json.loads` failure and anything a handler lets escape (modelled: a
failing scan) — is caught by the boundary `except`, which only prints; no
event is sent for it and the receive loop (second component `true`)
continues. -/
def processMessage (env : PairEnv) (scan : List ScanDevice) (ws : WSState)
    (msg : InboundMsg) : WSState × Bool :=
  match msg with
  | .malformed => (ws, true)
  | .parsed cmd addr proto pin did =>
    match cmd with
    | some "discover" =>
      (if env.scanOk then handleDiscover scan ws else ws, true)
    | some "get_paired" =>
      (emit ws (.discoveryResults (getPairedDevicesInitial ws.db)), true)
    | some "connect" =>
      (handleConnect env ws addr, true)
    | some "disconnect" =>
      (emit (cleanupSession ws).1 (.statusMsg "Disconnected from Apple TV."), true)
    | some "pair_start" =>
      (handlePairStart env scan ws addr proto, true)
    | some "pair_pin" =>
      (handlePairPin env scan ws pin, true)
    | some "delete_device" =>
      (if env.scanOk then handleDiscover scan { ws with db := deleteDevice ws.db did }
       else { ws with db := deleteDevice ws.db did }, true)
    | c => ((handleRemoteCmd env ws c).1, true)

/-- The three-step client interaction of the chained-pairing property: a
`pair_start` with no explicit protocol followed by two PIN submissions. -/
def chainTrace (env : PairEnv) (scan : List ScanDevice) (ws : WSState)
    (address : String) (pin1 pin2 : String) : WSState :=
  handlePairPin env scan
    (handlePairPin env scan
      (handlePairStart env scan ws (some address) none) (some pin1))
    (some pin2)

/-!
## Concrete instances used by counterexamples and witnesses
-/

/-- A provider environment in which every external call succeeds; the
completed handler for protocol `p` reports protocol `p`, device id `"ID1"`
and credentials `"cred-" ++ p`. -/
def allYesEnv : PairEnv :=
  ⟨true, fun _ _ => true, fun _ _ _ => true,
    fun _ p => ⟨"cred-" ++ p, p, "ID1"⟩,
    fun _ => true, fun _ => "connect error", fun _ => true,
    fun _ => "command error"⟩

/-- A scanned device advertising MRP and AirPlay. -/
def tvDevice : ScanDevice :=
  ⟨"Living Room", "10.0.0.5", "ID1", ["ID1"],
    [⟨"MRP", "ID1-mrp"⟩, ⟨"AirPlay", "ID1-air"⟩]⟩

/-- A connection state with an empty store whose cache holds `tvDevice`. -/
def wsWithCache : WSState :=
  ⟨[], [("10.0.0.5", tvDevice)], none, none, []⟩

/-- A fresh connection state: nothing stored, nothing cached, no session. -/
def emptyWS : WSState :=
  ⟨[], [], none, none, []⟩

/-- A connection state with a connected device session whose listener was
just constructed. -/
def connWS : WSState :=
  ⟨[], [], some ⟨true, false, initNPState⟩, none, []⟩

/-- Two stored rows sharing `device_id = "ID1"` but recorded under
different addresses. -/
def splitStored : List StoredEntry :=
  [⟨"ID1", "MRP", "TV", "1.1.1.1", "c1"⟩,
   ⟨"ID1", "AirPlay", "TV", "2.2.2.2", "c2"⟩]

/-!
## Helper lemmas
-/

theorem updateNowPlaying_fetched (s : NPState) (ps : Playing)
    (app art : Option String) (fetch : FetchOutcome) (e : Bool) :
    (updateNowPlaying s ps app art fetch e).fetched =
      decide (app ≠ s.last_app ∨ ps.title ≠ s.last_title ∨
        art ≠ s.last_artwork_id) := by
  unfold updateNowPlaying
  by_cases h : app ≠ s.last_app ∨ ps.title ≠ s.last_title ∨
      art ≠ s.last_artwork_id
  · simp [h]
  · simp [h]

theorem updateNowPlaying_state_of_fetched (s : NPState) (ps : Playing)
    (app art : Option String) (fetch : FetchOutcome) (e : Bool)
    (h : app ≠ s.last_app ∨ ps.title ≠ s.last_title ∨
      art ≠ s.last_artwork_id) :
    (updateNowPlaying s ps app art fetch e).state.last_title = ps.title ∧
    (updateNowPlaying s ps app art fetch e).state.last_app = app ∧
    (updateNowPlaying s ps app art fetch e).state.last_artwork_id = art ∧
    (updateNowPlaying s ps app art fetch e).state.last_device_state =
      some (lowerStr ps.device_state) := by
  unfold updateNowPlaying
  simp [h]

/-!
## Claims about the now-playing reconciler
-/

/-- C4 (counterexample): a reconciliation pass whose final step — the
`send_json` emit — fails (event `none`) nevertheless leaves `last_title`
holding the value written earlier in that same pass, contradicting the
claim that no snapshot field holds a mid-pass value when a later step
fails. -/
theorem snapshot_midpass_write_counterexample :
    (updateNowPlaying ⟨none, none, some "Old", none, some "paused", true⟩
      ⟨some "New", none, none, "Playing"⟩ none none FetchOutcome.failure
      false).event = none ∧
    (updateNowPlaying ⟨none, none, some "Old", none, some "paused", true⟩
      ⟨some "New", none, none, "Playing"⟩ none none FetchOutcome.failure
      false).state.last_title = some "New" ∧
    (updateNowPlaying ⟨none, none, some "Old", none, some "paused", true⟩
      ⟨some "New", none, none, "Playing"⟩ none none FetchOutcome.failure
      false).state.last_device_state = some "playing" := by
  decide

/-- C4 (amended): the snapshot fields are written *before* the emit —
the updated state is the same whether or not the final `send_json`
succeeds, and `last_device_state` is (re)written at the start of every
pass, whether or not anything changed. -/
theorem snapshot_state_independent_of_emit (s : NPState) (ps : Playing)
    (app art : Option String) (fetch : FetchOutcome) :
    (updateNowPlaying s ps app art fetch false).state =
      (updateNowPlaying s ps app art fetch true).state ∧
    (updateNowPlaying s ps app art fetch false).state.last_device_state =
      some (lowerStr ps.device_state) := by
  constructor
  · rfl
  · unfold updateNowPlaying
    by_cases h : app ≠ s.last_app ∨ ps.title ≠ s.last_title ∨
        art ≠ s.last_artwork_id
    · simp [h]
    · simp [h]

/-- C5: a reconciliation pass fetches artwork iff the app, title or artwork
identity changed relative to the snapshot; consequently two consecutive
poll ticks carrying identical title, app and artwork identity perform at
most one artwork fetch between them. -/
theorem artwork_refetch_suppression (s : NPState) (ps : Playing)
    (app art : Option String) (fetch1 fetch2 : FetchOutcome) (e1 e2 : Bool) :
    ((updateNowPlaying s ps app art fetch1 e1).fetched = true ↔
      (app ≠ s.last_app ∨ ps.title ≠ s.last_title ∨
        art ≠ s.last_artwork_id)) ∧
    ¬((pollTick s ps app art fetch1 e1).fetched = true ∧
      (pollTick (pollTick s ps app art fetch1 e1).state ps app art fetch2
        e2).fetched = true) := by
  constructor
  · rw [updateNowPlaying_fetched]
    exact decide_eq_true_iff
  · rintro ⟨h1, h2⟩
    rcases hpc : pollCheck s ps with _ | b
    · have t1 : pollTick s ps app art fetch1 e1 = ⟨s, none, false⟩ := by
        unfold pollTick
        rw [hpc]
      rw [t1] at h1
      simp at h1
    · cases b with
      | false =>
        have t1 : pollTick s ps app art fetch1 e1 = ⟨s, none, false⟩ := by
          unfold pollTick
          rw [hpc]
        rw [t1] at h1
        simp at h1
      | true =>
        have t1 : pollTick s ps app art fetch1 e1 =
            updateNowPlaying s ps app art fetch1 e1 := by
          unfold pollTick
          rw [hpc]
        rw [t1] at h1 h2
        have hcond : app ≠ s.last_app ∨ ps.title ≠ s.last_title ∨
            art ≠ s.last_artwork_id := by
          have hf := updateNowPlaying_fetched s ps app art fetch1 e1
          rw [h1] at hf
          exact of_decide_eq_true hf.symm
        obtain ⟨ht, _, _, hds⟩ :=
          updateNowPlaying_state_of_fetched s ps app art fetch1 e1 hcond
        have hpc2 : pollCheck (updateNowPlaying s ps app art fetch1 e1).state
            ps = some false := by
          unfold pollCheck
          rw [ht, hds]
          simp
        have t2 : pollTick (updateNowPlaying s ps app art fetch1 e1).state
            ps app art fetch2 e2 =
            ⟨(updateNowPlaying s ps app art fetch1 e1).state, none, false⟩ := by
          unfold pollTick
          rw [hpc2]
        rw [t2] at h2
        simp at h2

/-- C5 (witness): at a concrete input with a changed title the pass does
fetch. -/
theorem artwork_refetch_suppression_witness :
    (updateNowPlaying initNPState ⟨some "Film", none, none, "Playing"⟩ none
      none FetchOutcome.failure true).fetched = true :=
  (artwork_refetch_suppression initNPState
      ⟨some "Film", none, none, "Playing"⟩ none none FetchOutcome.failure
      FetchOutcome.failure true true).1.mpr (Or.inr (Or.inl (by decide)))

/-- C6: when the artwork fetch fails during a pass, the cached payload is
cleared — and the emitted event has `has_artwork = false` — exactly when
the app or the title changed; when neither changed the cache is kept and
the emitted event still carries the previously cached artwork. -/
theorem artwork_staleness_on_failure (s : NPState) (ps : Playing)
    (app art : Option String) (emitOk : Bool) :
    ((app ≠ s.last_app ∨ ps.title ≠ s.last_title) →
      (updateNowPlaying s ps app art FetchOutcome.failure
        emitOk).state.last_artwork_data = none ∧
      ∀ ev, (updateNowPlaying s ps app art FetchOutcome.failure
        emitOk).event = some ev → ev.has_artwork = false) ∧
    (app = s.last_app → ps.title = s.last_title →
      (updateNowPlaying s ps app art FetchOutcome.failure
        emitOk).state.last_artwork_data = s.last_artwork_data ∧
      ∀ ev, (updateNowPlaying s ps app art FetchOutcome.failure
        emitOk).event = some ev → ev.artwork = s.last_artwork_data) := by
  constructor
  · intro h
    have hcond : app ≠ s.last_app ∨ ps.title ≠ s.last_title ∨
        art ≠ s.last_artwork_id :=
      h.elim (fun x => Or.inl x) (fun x => Or.inr (Or.inl x))
    unfold updateNowPlaying
    constructor
    · simp [hcond, h]
    · intro ev hev
      cases emitOk with
      | false => simp at hev
      | true =>
        simp [hcond, h] at hev
        simp [← hev, hcond, h]
  · intro ha ht
    by_cases hart : art ≠ s.last_artwork_id
    · have hcond : app ≠ s.last_app ∨ ps.title ≠ s.last_title ∨
          art ≠ s.last_artwork_id := Or.inr (Or.inr hart)
      unfold updateNowPlaying
      constructor
      · simp [hcond, ha, ht, hart]
      · intro ev hev
        cases emitOk with
        | false => simp at hev
        | true =>
          simp [hcond, ha, ht, hart] at hev
          simp [← hev, hcond, ha, ht, hart]
    · have hcond : ¬(app ≠ s.last_app ∨ ps.title ≠ s.last_title ∨
          art ≠ s.last_artwork_id) := by
        simp [ha, ht, hart]
      unfold updateNowPlaying
      constructor
      · simp [hcond]
      · intro ev hev
        cases emitOk with
        | false => simp at hev
        | true =>
          simp [hcond] at hev
          simp [← hev, hcond]

/-- C6 (witness): with a changed app and a failed fetch the cache is
cleared at a concrete input. -/
theorem artwork_staleness_on_failure_witness :
    (updateNowPlaying ⟨some "art0", some "data0", some "T", some "AppA",
      some "playing", true⟩ ⟨some "T", none, none, "Playing"⟩ (some "AppB")
      (some "art0") FetchOutcome.failure true).state.last_artwork_data =
      none :=
  ((artwork_staleness_on_failure ⟨some "art0", some "data0", some "T",
      some "AppA", some "playing", true⟩ ⟨some "T", none, none, "Playing"⟩
      (some "AppB") (some "art0") true).1 (Or.inl (by decide))).1

/-- C3: evaluating `_cleanup_session` on a connection holding a freshly
constructed listener: the session slot is released, but the listener state
handed back is untouched — its `is_running` flag is still `true`, so the
`while self.is_running` poll loop keeps ticking (nothing ever calls
`NowPlayingListener.stop`). -/
theorem cleanup_leaves_poll_running :
    (cleanupSession ⟨[], [], some ⟨true, false, initNPState⟩, none, []⟩).2 =
      some initNPState ∧
    initNPState.is_running = true ∧
    (cleanupSession ⟨[], [], some ⟨true, false, initNPState⟩, none,
      []⟩).1.connected = none := by
  decide

/-- C10 (counterexample): a poll tick taken before any reconciliation pass
(listener state exactly as `__init__` left it) whose sampled title is
non-`None` short-circuits the `or` before reading the missing
`last_device_state` attribute, runs the update and emits an event —
contradicting the claim that every such tick swallows an `AttributeError`
and does nothing. -/
theorem poll_short_circuit_counterexample :
    (pollTick initNPState ⟨some "Movie", none, none, "Playing"⟩ none none
      (FetchOutcome.success none) true).event.isSome = true ∧
    (pollTick initNPState ⟨some "Movie", none, none, "Playing"⟩ none none
      (FetchOutcome.success none) true).state.last_title = some "Movie" := by
  decide

/-- C10 (amended): before the first pass `last_device_state` is an absent
attribute; a poll tick whose sampled title equals the stored `last_title`
(initially `None`) then raises `AttributeError` in the comparison, which
the bare `except` swallows — no update, no event; but a tick whose title
differs short-circuits the comparison and does run the update. -/
theorem poll_before_first_pass (s : NPState) (ps : Playing)
    (app art : Option String) (fetch : FetchOutcome) (e : Bool)
    (hmissing : s.last_device_state = none) :
    (ps.title = s.last_title →
      pollTick s ps app art fetch e = ⟨s, none, false⟩) ∧
    (ps.title ≠ s.last_title →
      pollTick s ps app art fetch e =
        updateNowPlaying s ps app art fetch e) ∧
    initNPState.last_device_state = none := by
  refine ⟨?_, ?_, rfl⟩
  · intro h
    unfold pollTick pollCheck
    rw [hmissing]
    simp [h]
  · intro h
    unfold pollTick pollCheck
    simp [h]

/-- C10 (witness): at the freshly constructed listener a tick sampling a
`None` title is a no-op. -/
theorem poll_before_first_pass_witness :
    pollTick initNPState ⟨none, none, none, "Paused"⟩ none none
      FetchOutcome.failure true = ⟨initNPState, none, false⟩ :=
  (poll_before_first_pass initNPState ⟨none, none, none, "Paused"⟩ none none
      FetchOutcome.failure true rfl).1 rfl

/-!
## Claims about the session manager and the store
-/

/-- C7 (counterexample): an unparseable frame — whose `json.loads` raises —
is swallowed at the dispatch boundary with *no* error event sent to the
client (the state, events included, is unchanged), contradicting the claim
that every raising dispatch produces a structured error event.  The loop
does continue. -/
theorem malformed_message_no_error_event :
    (processMessage allYesEnv [] emptyWS InboundMsg.malformed).1.events =
      [] ∧
    (processMessage allYesEnv [] emptyWS InboundMsg.malformed).2 = true := by
  decide

/-- C7 (amended): every exception escaping structured-message dispatch is
caught at the boundary and the receive loop continues — the connection is
never torn down by a bad frame — but the boundary handler only logs: a
malformed frame produces no event at all. -/
theorem dispatch_exceptions_swallowed (env : PairEnv)
    (scan : List ScanDevice) (ws : WSState) (msg : InboundMsg) :
    (processMessage env scan ws msg).2 = true ∧
    (processMessage env scan ws InboundMsg.malformed).1 = ws := by
  refine ⟨?_, rfl⟩
  cases msg with
  | malformed => rfl
  | parsed cmd addr proto pin did =>
    simp only [processMessage]
    split <;> rfl

/-- C8 (counterexample): a direct remote-control command arriving with no
connected device session is silently dropped — no event is sent and
nothing is forwarded — contradicting the claim that a "not connected"
condition is reported to the client. -/
theorem remote_cmd_not_connected_silent :
    (handleRemoteCmd allYesEnv emptyWS (some "up")).1.events = [] ∧
    (handleRemoteCmd allYesEnv emptyWS (some "up")).2 = [] := by
  decide

/-- C8 (amended): an inbound command with no structured handler is
forwarded to the device when a session is connected; with no session it is
silently dropped (the handler returns immediately, sending nothing). -/
theorem remote_cmd_forwarding (env : PairEnv) (ws : WSState)
    (cmd : Option String) :
    (ws.connected = none → handleRemoteCmd env ws cmd = (ws, [])) ∧
    (∀ c, ws.connected = some c →
      (handleRemoteCmd env ws cmd).2 = [cmd]) := by
  constructor
  · intro h
    unfold handleRemoteCmd
    rw [h]
  · intro c h
    unfold handleRemoteCmd
    rw [h]
    dsimp only
    split <;> rfl

/-- C8 (witness): with a connected session the command is handed to the
device. -/
theorem remote_cmd_forwarding_witness :
    (handleRemoteCmd allYesEnv connWS (some "menu")).2 = [some "menu"] :=
  (remote_cmd_forwarding allYesEnv connWS (some "menu")).2
    ⟨true, false, initNPState⟩ rfl

theorem find?_filter_append {α : Type} (l : List α) (r : α) (q k : α → Bool)
    (hqr : q r = false) (himp : ∀ x, q x = true → k x = true) :
    List.find? q (l.filter k ++ [r]) = List.find? q l := by
  induction l with
  | nil => simp [List.find?, hqr]
  | cons e l ih =>
    rw [List.filter_cons]
    cases hq : q e with
    | true =>
      rw [himp e hq]
      simp only [if_true]
      rw [List.cons_append]
      simp [List.find?, hq]
    | false =>
      cases hk : k e with
      | true =>
        simp only [if_true]
        rw [List.cons_append]
        simp [List.find?, hq, ih]
      | false =>
        simp only [Bool.false_eq_true, if_false]
        simp [List.find?, hq, ih]

theorem find?_filter_append_self {α : Type} (l : List α) (r : α)
    (q k : α → Bool) (hqr : q r = true)
    (hkq : ∀ x, k x = true → q x = false) :
    List.find? q (l.filter k ++ [r]) = some r := by
  induction l with
  | nil => simp [List.find?, hqr]
  | cons e l ih =>
    rw [List.filter_cons]
    cases hk : k e with
    | true =>
      simp only [if_true]
      rw [List.cons_append]
      simp [List.find?, hkq e hk, ih]
    | false =>
      simp only [Bool.false_eq_true, if_false]
      exact ih

theorem lookupRecord_upsert (db : List StoredEntry) (rec : StoredEntry)
    (d p : String) (h : ¬(d = rec.device_id ∧ p = rec.protocol)) :
    lookupRecord (upsertRecord db rec) d p = lookupRecord db d p := by
  unfold lookupRecord upsertRecord
  refine find?_filter_append db rec _ _ ?_ ?_
  · simp only [decide_eq_false_iff_not]
    rintro ⟨x, y⟩
    exact h ⟨x.symm, y.symm⟩
  · intro x hx
    simp only [decide_eq_true_eq] at hx
    simp only [Bool.not_eq_true', decide_eq_false_iff_not]
    rintro ⟨x1, y1⟩
    exact h ⟨hx.1.symm.trans x1, hx.2.symm.trans y1⟩

theorem lookupRecord_upsert_self (db : List StoredEntry) (rec : StoredEntry) :
    lookupRecord (upsertRecord db rec) rec.device_id rec.protocol =
      some rec := by
  unfold lookupRecord upsertRecord
  refine find?_filter_append_self db rec _ _ ?_ ?_
  · simp
  · intro x hx
    simp only [Bool.not_eq_true', decide_eq_false_iff_not] at hx
    simpa using hx

/-- C9: completing a pairing for protocol A of device D only creates or
replaces the `(D, A)` row: every lookup under a different
`(device_id, protocol)` key — in particular `(D, B)` for `B ≠ A` — returns
exactly the record (name, address, credentials included) it returned
before. -/
theorem pairing_protocol_independence (cache : List (String × ScanDevice))
    (db : List StoredEntry) (svc : HandlerService) (d p : String)
    (h : ¬(d = svc.identifier ∧ p = svc.protocol)) :
    lookupRecord (finishPairingSession cache db svc).1 d p =
      lookupRecord db d p := by
  unfold finishPairingSession
  exact lookupRecord_upsert db _ d p h

/-- C9 (witness): pairing MRP for device `D` leaves the stored AirPlay row
of `D` untouched. -/
theorem pairing_protocol_independence_witness :
    lookupRecord (finishPairingSession []
      [⟨"D", "AirPlay", "TV", "1.1.1.1", "old"⟩]
      ⟨"newcred", "MRP", "D"⟩).1 "D" "AirPlay" =
      some ⟨"D", "AirPlay", "TV", "1.1.1.1", "old"⟩ := by
  rw [pairing_protocol_independence []
    [⟨"D", "AirPlay", "TV", "1.1.1.1", "old"⟩] ⟨"newcred", "MRP", "D"⟩ "D"
    "AirPlay" (by decide)]
  decide

/-!
## Claims about discovery grouping
-/

/-- C1 (counterexample): two stored rows sharing `device_id = "ID1"` but
recorded under different addresses yield *two* view entries (here with an
empty scan), neither containing both protocols — contradicting the claim
that records sharing an identity are always merged into one entry. -/
theorem identity_merge_counterexample :
    (getFormattedDiscoveryResults [] splitStored).results.length = 2 ∧
    ((getFormattedDiscoveryResults [] splitStored).results.all
      (fun v => !(v.paired_protocols.contains "MRP" &&
        v.paired_protocols.contains "AirPlay"))) = true := by
  decide

theorem foldl_addToGroups_uniform (l : List StoredEntry) (k : String)
    (g : StoredGroup) (h : ∀ e ∈ l, groupKey e = k) :
    l.foldl addToGroups [(k, g)] =
      [(k, ⟨g.name, g.address, g.creds ++ l,
        l.foldl (fun acc e =>
          if e.device_id ∈ acc then acc else acc ++ [e.device_id]) g.ids⟩)] := by
  induction l generalizing g with
  | nil => simp
  | cons e l ih =>
    have hk : groupKey e = k := h e (List.mem_cons_self e l)
    rw [List.foldl_cons]
    have hstep : addToGroups [(k, g)] e =
        [(k, ⟨g.name, g.address, g.creds ++ [e],
          if e.device_id ∈ g.ids then g.ids else g.ids ++ [e.device_id]⟩)] := by
      unfold addToGroups
      rw [hk]
      simp
    rw [hstep, ih _ (fun x hx => h x (List.mem_cons_of_mem e hx))]
    simp [List.append_assoc]

/-- C1 (amended): the durable records are grouped by exact `(address,
name)` equality only — identity overlap merely attaches a scanned device
to the first such group.  All stored records sharing one `(address, name)`
pair are merged into a single view entry carrying every record's protocol;
records sharing only a `device_id` across different `(address, name)` keys
stay in separate entries. -/
theorem grouping_by_address_name_merges (stored : List StoredEntry)
    (a n : String) (hne : stored ≠ [])
    (hall : ∀ e ∈ stored, e.address = a ∧ e.name = n) :
    ∃ v, (getFormattedDiscoveryResults [] stored).results = [v] ∧
      ∀ e ∈ stored, e.protocol ∈ v.paired_protocols := by
  cases stored with
  | nil => exact absurd rfl hne
  | cons e0 rest =>
    have hkey : ∀ x ∈ (e0 :: rest), groupKey x = a ++ "_" ++ n := by
      intro x hx
      have hx2 := hall x hx
      unfold groupKey
      rw [hx2.1, hx2.2]
    have hg : buildStoredGroups (e0 :: rest) =
        [(a ++ "_" ++ n, ⟨e0.name, e0.address, [e0] ++ rest,
          rest.foldl (fun acc e =>
            if e.device_id ∈ acc then acc else acc ++ [e.device_id])
            [e0.device_id]⟩)] := by
      unfold buildStoredGroups
      rw [List.foldl_cons]
      have h0 : addToGroups [] e0 =
          [(groupKey e0, ⟨e0.name, e0.address, [e0], [e0.device_id]⟩)] := rfl
      rw [h0, hkey e0 (List.mem_cons_self e0 rest),
        foldl_addToGroups_uniform rest _ _
          (fun x hx => hkey x (List.mem_cons_of_mem e0 hx))]
    refine ⟨formatOfflineDevice ⟨e0.name, e0.address, [e0] ++ rest,
      rest.foldl (fun acc e =>
        if e.device_id ∈ acc then acc else acc ++ [e.device_id])
        [e0.device_id]⟩, ?_, ?_⟩
    · unfold getFormattedDiscoveryResults
      rw [hg]
      simp [onlineStep]
    · intro e he
      unfold formatOfflineDevice
      simpa using List.mem_map_of_mem (fun c => c.protocol) he

/-- C1 (witness): two rows stored under the same `(address, name)` merge
into one entry holding both protocols. -/
theorem grouping_by_address_name_merges_witness :
    ∃ v, (getFormattedDiscoveryResults []
      [⟨"ID1", "MRP", "TV", "1.1.1.1", "c1"⟩,
       ⟨"ID2", "AirPlay", "TV", "1.1.1.1", "c2"⟩]).results = [v] ∧
      ∀ e ∈ [(⟨"ID1", "MRP", "TV", "1.1.1.1", "c1"⟩ : StoredEntry),
        ⟨"ID2", "AirPlay", "TV", "1.1.1.1", "c2"⟩],
        e.protocol ∈ v.paired_protocols :=
  grouping_by_address_name_merges
    [⟨"ID1", "MRP", "TV", "1.1.1.1", "c1"⟩,
     ⟨"ID2", "AirPlay", "TV", "1.1.1.1", "c2"⟩] "1.1.1.1" "TV"
    (by decide) (by decide)

/-!
## Claim about chained multi-protocol pairing
-/

/-- C2: on a device whose discovery-derived unpaired queue is `[A, B]`, a
`pair_start` with no explicit protocol followed by two successful PIN
submissions emits `started A`, then (after the first PIN, with the queue
still non-empty) `started B` — not `completed` —, then exactly one terminal
`completed` event (followed by the refreshed discovery results), persists
one DeviceRecord per protocol, and clears the pairing slot. -/
theorem chained_pairing_completion (env : PairEnv) (scan : List ScanDevice)
    (ws : WSState) (address A B pin1 pin2 : String) (device : ScanDevice)
    (hdev : dictGet ws.cache address = some device)
    (hscan : env.scanOk = true)
    (hq : pairStartQueue (getFormattedDiscoveryResults scan ws.db) device
      address = [A, B])
    (hcache : (dictGet (getFormattedDiscoveryResults scan ws.db).cache
      address).isSome = true)
    (hA : protocolNames.contains A = true)
    (hB : protocolNames.contains B = true)
    (hpairA : env.pairOk address A = true)
    (hpairB : env.pairOk address B = true)
    (hpinA : env.pinOk address A (some pin1) = true)
    (hpinB : env.pinOk address B (some pin2) = true)
    (hprotoA : (env.handlerService address A).protocol = A)
    (hprotoB : (env.handlerService address B).protocol = B)
    (hAB : A ≠ B) :
    (chainTrace env scan ws address pin1 pin2).events =
      ws.events ++
        [WSEvent.pairingStarted A ("Enter PIN for " ++ A),
         WSEvent.pairingStarted B ("Enter PIN for " ++ B),
         WSEvent.pairingCompleted address,
         WSEvent.discoveryResults (getFormattedDiscoveryResults scan
           (finishPairingSession
             (getFormattedDiscoveryResults scan ws.db).cache
             (finishPairingSession
               (getFormattedDiscoveryResults scan ws.db).cache ws.db
               (env.handlerService address A)).1
             (env.handlerService address B)).1).results] ∧
    (lookupRecord (chainTrace env scan ws address pin1 pin2).db
      (env.handlerService address A).identifier A).isSome = true ∧
    (lookupRecord (chainTrace env scan ws address pin1 pin2).db
      (env.handlerService address B).identifier B).isSome = true ∧
    (chainTrace env scan ws address pin1 pin2).pairing = none := by
  have hfinal : chainTrace env scan ws address pin1 pin2 =
      { ws with
          db := (finishPairingSession
              (getFormattedDiscoveryResults scan ws.db).cache
              (finishPairingSession
                (getFormattedDiscoveryResults scan ws.db).cache ws.db
                (env.handlerService address A)).1
              (env.handlerService address B)).1,
          cache := (getFormattedDiscoveryResults scan
            (finishPairingSession
              (getFormattedDiscoveryResults scan ws.db).cache
              (finishPairingSession
                (getFormattedDiscoveryResults scan ws.db).cache ws.db
                (env.handlerService address A)).1
              (env.handlerService address B)).1).cache,
          pairing := none,
          events := ws.events ++
            [WSEvent.pairingStarted A ("Enter PIN for " ++ A),
             WSEvent.pairingStarted B ("Enter PIN for " ++ B),
             WSEvent.pairingCompleted address,
             WSEvent.discoveryResults (getFormattedDiscoveryResults scan
               (finishPairingSession
                 (getFormattedDiscoveryResults scan ws.db).cache
                 (finishPairingSession
                   (getFormattedDiscoveryResults scan ws.db).cache ws.db
                   (env.handlerService address A)).1
                 (env.handlerService address B)).1).results] } := by
    have hAmem : A ∈ protocolNames := by simpa using hA
    have hBmem : B ∈ protocolNames := by simpa using hB
    unfold chainTrace handlePairStart handlePairPin startNextInPairingQueue
      startPairingSessionOk handleDiscover emit
    simp only [hdev, hscan, hq, hcache, hA, hB, hpairA, hpairB, hpinA, hpinB]
    simp [hdev, hscan, hq, hcache, hA, hB, hAmem, hBmem, hpairA, hpairB,
      hpinA, hpinB, List.append_assoc]
  refine ⟨?_, ?_, ?_, ?_⟩
  · rw [hfinal]
  · rw [hfinal]
    have hstep : (finishPairingSession
        (getFormattedDiscoveryResults scan ws.db).cache
        (finishPairingSession
          (getFormattedDiscoveryResults scan ws.db).cache ws.db
          (env.handlerService address A)).1
        (env.handlerService address B)).1 =
        upsertRecord (finishPairingSession
          (getFormattedDiscoveryResults scan ws.db).cache ws.db
          (env.handlerService address A)).1
          ⟨(env.handlerService address B).identifier,
           (env.handlerService address B).protocol,
           (resolveNameAddr (getFormattedDiscoveryResults scan ws.db).cache
             (env.handlerService address B).identifier).1,
           (resolveNameAddr (getFormattedDiscoveryResults scan ws.db).cache
             (env.handlerService address B).identifier).2,
           (env.handlerService address B).credentials⟩ := rfl
    rw [hstep, lookupRecord_upsert]
    · have hstepA : (finishPairingSession
          (getFormattedDiscoveryResults scan ws.db).cache ws.db
          (env.handlerService address A)).1 =
          upsertRecord ws.db
            ⟨(env.handlerService address A).identifier,
             (env.handlerService address A).protocol,
             (resolveNameAddr (getFormattedDiscoveryResults scan ws.db).cache
               (env.handlerService address A).identifier).1,
             (resolveNameAddr (getFormattedDiscoveryResults scan ws.db).cache
               (env.handlerService address A).identifier).2,
             (env.handlerService address A).credentials⟩ := rfl
      rw [hstepA, hprotoA]
      have hself := lookupRecord_upsert_self ws.db
        ⟨(env.handlerService address A).identifier, A,
         (resolveNameAddr (getFormattedDiscoveryResults scan ws.db).cache
           (env.handlerService address A).identifier).1,
         (resolveNameAddr (getFormattedDiscoveryResults scan ws.db).cache
           (env.handlerService address A).identifier).2,
         (env.handlerService address A).credentials⟩
      simpa using congrArg Option.isSome hself
    · rintro ⟨_, hcontra⟩
      exact hAB (hcontra.trans hprotoB)
  · rw [hfinal]
    have hstep : (finishPairingSession
        (getFormattedDiscoveryResults scan ws.db).cache
        (finishPairingSession
          (getFormattedDiscoveryResults scan ws.db).cache ws.db
          (env.handlerService address A)).1
        (env.handlerService address B)).1 =
        upsertRecord (finishPairingSession
          (getFormattedDiscoveryResults scan ws.db).cache ws.db
          (env.handlerService address A)).1
          ⟨(env.handlerService address B).identifier,
           (env.handlerService address B).protocol,
           (resolveNameAddr (getFormattedDiscoveryResults scan ws.db).cache
             (env.handlerService address B).identifier).1,
           (resolveNameAddr (getFormattedDiscoveryResults scan ws.db).cache
             (env.handlerService address B).identifier).2,
           (env.handlerService address B).credentials⟩ := rfl
    rw [hstep, hprotoB]
    have hself := lookupRecord_upsert_self
      (finishPairingSession (getFormattedDiscoveryResults scan ws.db).cache
        ws.db (env.handlerService address A)).1
      ⟨(env.handlerService address B).identifier, B,
       (resolveNameAddr (getFormattedDiscoveryResults scan ws.db).cache
         (env.handlerService address B).identifier).1,
       (resolveNameAddr (getFormattedDiscoveryResults scan ws.db).cache
         (env.handlerService address B).identifier).2,
       (env.handlerService address B).credentials⟩
    simpa using congrArg Option.isSome hself
  · rw [hfinal]

/-- C2 (witness): the concrete two-protocol device paired end to end —
both records are stored. -/
theorem chained_pairing_completion_witness :
    (lookupRecord (chainTrace allYesEnv [tvDevice] wsWithCache "10.0.0.5"
      "1111" "2222").db "ID1" "MRP").isSome = true :=
  (chained_pairing_completion allYesEnv [tvDevice] wsWithCache "10.0.0.5"
    "MRP" "AirPlay" "1111" "2222" tvDevice (by decide) rfl (by decide)
    (by decide) (by decide) (by decide) rfl rfl rfl rfl rfl rfl
    (by decide)).2.1

end ATVRemote

